import Mathlib

/-!
# Verification of the vibe-writer LLM completion core

Shallow embedding of `src/llm_helper.py`, `src/openai_helper.py` and
`src/openrouter_helper.py` (the blocking and streaming completion clients,
message assembly, credential/model resolution, the adaptive streaming gate
and the provider router), together with theorems settling the frozen claims.

Modelling conventions:
* Python strings are Lean `String`; `str.strip()` is `String.trim`.
* Python `a or b` on strings (falsy = empty/None) is `pyOrS`.
* Exceptions are `Option`: a step that may raise returns `none` for the
  raising case, and the translation of a `try/except` block branches on it.
* The network is an oracle carried in a `World` value: the response to a
  POST is a function of the request payload (model + messages), `none`
  modelling a raised request (timeout, connection error).  `json.loads`
  is likewise an oracle `String → Option Json`.
* The `ConfigManager` singleton is an explicit `Config` value threaded
  through the calls; the streaming client returns the updated `Config`
  and the list of values written to `llm.use_streaming`.
* Side effects tracked in results: number of HTTP requests issued,
  the ordered list of `on_delta` invocation payloads, the gate writes.
  `console_print` logging is a side channel with no behavioural content
  and is not modelled.
-/

namespace VW

/-- Python `a or b` where `a` is an optional string and both `None` and
`""` are falsy (used for `os.getenv(..) or ''`, `get_config_value(..) or d`,
`model or configured_model or ...`). -/
def pyOrS (a : Option String) (b : String) : String :=
  match a with
  | some s => if s = "" then b else s
  | none => b

/-- ASCII whitespace as stripped by `str.strip()` (the Unicode space
classes CPython also strips do not occur in this protocol). -/
def isPyWS (c : Char) : Bool :=
  c = ' ' || c = '\t' || c = '\n' || c = '\r' || c = '\x0b' || c = '\x0c'

/-- `s.strip()`.  Defined over the character list so that it evaluates by
kernel reduction (core `String.trim` is well-founded-recursive). -/
def pyStrip (s : String) : String :=
  String.mk (((s.data.dropWhile isPyWS).reverse.dropWhile isPyWS).reverse)

def listStartsWith : List Char → List Char → Bool
  | _, [] => true
  | [], _ :: _ => false
  | c :: cs, d :: ds => c = d && listStartsWith cs ds

/-- `s.startswith(p)`. -/
def pyStartsWith (s p : String) : Bool := listStartsWith s.data p.data

/-- `s[n:]`. -/
def pyDrop (s : String) (n : Nat) : String := String.mk (s.data.drop n)

/-- `s.lower()`. -/
def pyLower (s : String) : String := String.mk (s.data.map Char.toLower)

def listContainsSub : List Char → List Char → Bool
  | [], needle => needle.isEmpty
  | h :: t, needle => listStartsWith (h :: t) needle || listContainsSub t needle

/-- Python `sub in s` for strings. -/
def pyContains (s sub : String) : Bool := listContainsSub s.data sub.data

/-- A role/content message dict, as built by the helpers.  Absent dict keys
(`m.get('role')` returning `None`) are modelled by the empty string, which
`(.. or '')` produces in the source. -/
structure Msg where
  role : String
  content : String
deriving Repr, DecidableEq

/-- One iteration of the history loop: `role = (m.get('role') or '').strip()`,
`content = (m.get('content') or '').strip()`, append the turn when the role
is `user`/`assistant` and the content non-empty. -/
def buildStep (acc : List Msg) (m : Msg) : List Msg :=
  let role := pyStrip m.role
  let content := pyStrip m.content
  if (role = "user" || role = "assistant") && content != "" then
    acc ++ [⟨role, content⟩]
  else acc

/-- Message assembly, `openai_helper.py` lines 64-84 and
`openrouter_helper.py` lines 64-84 / 178-190 (identical in all four call
sites): start from the system turn, run the history loop, then append the
rendered user turn. -/
def buildMessages (systemPrompt userContent : String) (history : List Msg) : List Msg :=
  (history.foldl buildStep [⟨"system", systemPrompt⟩]) ++ [⟨"user", userContent⟩]

/-- The projection applied to each kept history entry. -/
def keepTurn (m : Msg) : Option Msg :=
  let role := pyStrip m.role
  let content := pyStrip m.content
  if (role = "user" || role = "assistant") && content != "" then
    some ⟨role, content⟩
  else none

def lbraceC : Char := Char.ofNat 123
def rbraceC : Char := Char.ofNat 125

mutual
/-- Model of CPython `str.format(context=.., instructions=..)` restricted to
simple replacement fields: doubled-brace escapes, and the named fields
`context` / `instructions`.  Any other field name (KeyError), an
empty/automatic field (IndexError, no positional arguments are passed),
or an unbalanced brace (ValueError) raises, i.e. returns `none`.
Fields with conversions/format specs are conservatively treated as raising;
the templates of this repository use only plain fields. -/
def fmtGo (ctx instr : String) : List Char → Option String
  | [] => some ""
  | c :: cs =>
    if c = lbraceC then
      match cs with
      | [] => none
      | c2 :: cs2 =>
        if c2 = lbraceC then (fmtGo ctx instr cs2).map (fun t => lbraceC.toString ++ t)
        else fmtField ctx instr [] (c2 :: cs2)
    else if c = rbraceC then
      match cs with
      | [] => none
      | c2 :: cs2 =>
        if c2 = rbraceC then (fmtGo ctx instr cs2).map (fun t => rbraceC.toString ++ t)
        else none
    else (fmtGo ctx instr cs).map (fun t => c.toString ++ t)

/-- Reading a replacement-field name up to the closing brace. -/
def fmtField (ctx instr : String) (acc : List Char) : List Char → Option String
  | [] => none
  | c :: cs =>
    if c = rbraceC then
      let name := String.mk acc.reverse
      if name = "context" then (fmtGo ctx instr cs).map (fun t => ctx ++ t)
      else if name = "instructions" then (fmtGo ctx instr cs).map (fun t => instr ++ t)
      else none
    else fmtField ctx instr (c :: acc) cs
end

/-- `user_template.format(context=context_text, instructions=instructions_text)`,
`none` when the call raises. -/
def pyFormat (tmpl ctx instr : String) : Option String :=
  fmtGo ctx instr tmpl.data

/-- The fixed degraded layout of the `except` branch (`openai_helper.py`
line 62 / 178, `openrouter_helper.py` line 62 / 176). -/
def fallbackLayout (ctx instr : String) : String :=
  "CONTEXT:\n" ++ ctx ++ "\n\nINSTRUCTIONS:\n" ++ instr ++
    "\n\nPlease produce the final output now."

/-- The `try: .. .format(..) except: <fixed layout>` at the four template
rendering sites. -/
def renderUserContent (tmpl ctx instr : String) : String :=
  match pyFormat tmpl ctx instr with
  | some s => s
  | none => fallbackLayout ctx instr

/-- Built-in default system prompt (identical for both providers). -/
def defaultSystemPrompt : String :=
  "You are a precise text-transformation assistant. Follow the instructions exactly, using the provided context. Return only the final result without extra commentary."

/-- Built-in default user template (identical for both providers). -/
def defaultUserTemplate : String :=
  "CONTEXT:\n\x7bcontext\x7d\n\nINSTRUCTIONS:\n\x7binstructions\x7d\n\nPlease produce the final output now."

/-- JSON values, as produced by `resp.json()` / `json.loads`. -/
inductive Json where
  | null
  | bool (b : Bool)
  | num (n : Int)
  | str (s : String)
  | arr (elems : List Json)
  | obj (fields : List (String × Json))

/-- Python truthiness of a JSON value. -/
def Json.truthy : Json → Bool
  | .null => false
  | .bool b => b
  | .num n => n != 0
  | .str s => s != ""
  | .arr xs => !xs.isEmpty
  | .obj fs => !fs.isEmpty

/-- `x.get(k)`: `some` of the looked-up value (`null` when the key is
absent) when the receiver is a dict; `none` models the `AttributeError`
raised when it is not. -/
def Json.dictGet : Json → String → Option Json
  | .obj fs, k => some ((((fs.find? (fun p => p.1 = k))).map Prod.snd).getD .null)
  | _, _ => none

/-- `x.get(k) or dflt`. -/
def Json.getOr (j : Json) (k : String) (dflt : Json) : Option Json :=
  (j.dictGet k).map (fun v => if v.truthy then v else dflt)

/-- `xs[0]`: `none` models the `IndexError`/`TypeError` raised when the
receiver is not a non-empty list. -/
def Json.index0 : Json → Option Json
  | .arr (x :: _) => some x
  | _ => none

/-- The choice/message/content extraction of `generate_with_openai`
(lines 117-128) and `generate_with_openrouter` (lines 118-129):
`choices = data.get('choices') or []`; `if not choices: return ''`;
`message = choices[0].get('message') or \x7b\x7d`;
`text = (message.get('content') or '').strip()`; return `text`.
`none` is a raise at some step (caught by the enclosing handler). -/
def extractBlocking (data : Json) : Option String := do
  let choices ← data.getOr "choices" (.arr [])
  if !choices.truthy then
    return ""
  let c0 ← choices.index0
  let message ← c0.getOr "message" (.obj [])
  let contentJ ← message.getOr "content" (.str "")
  match contentJ with
  | .str s => return pyStrip s
  | _ => none

/-- The non-SSE (tier 2) extraction of `stream_with_openai` lines 253-256:
`choices = data.get('choices') or []`;
`message = (choices[0] or \x7b\x7d).get('message') or \x7b\x7d`;
`text = (message.get('content') or '').strip()`.
Unlike the blocking extraction there is no emptiness guard, so
`choices[0]` raises on an empty list (`none`). -/
def extractTier2 (data : Json) : Option String := do
  let choices ← data.getOr "choices" (.arr [])
  let c0 ← choices.index0
  let c0d := if c0.truthy then c0 else .obj []
  let message ← c0d.getOr "message" (.obj [])
  let contentJ ← message.getOr "content" (.str "")
  match contentJ with
  | .str s => return pyStrip s
  | _ => none

/-- Per-provider configuration section (`openai` / `openrouter` keys of the
config store); `none` models an absent key (`get_config_value` → `None`). -/
structure SectionCfg where
  model : Option String
  systemPrompt : Option String
  userPrompt : Option String
deriving Repr, DecidableEq

/-- The configuration store slice read/written by the completion core:
`llm.provider`, `llm.use_streaming` and the two provider sections. -/
structure Config where
  provider : Option String
  useStreaming : Option Bool
  openai : SectionCfg
  openrouter : SectionCfg
deriving Repr, DecidableEq

/-- Process environment slice (`os.getenv`). -/
structure Env where
  openaiKey : Option String
  openaiModel : Option String
  openrouterKey : Option String
  openrouterModel : Option String
deriving Repr, DecidableEq

/-- The request payload observed by the network oracle: the chosen model
and the assembled messages. -/
structure Req where
  model : String
  messages : List Msg
deriving Repr, DecidableEq

/-- A non-streaming HTTP response: status code and the result of
`resp.json()` (`none` models a raised JSON decode). -/
structure BlockResp where
  status : Nat
  body : Option Json

/-- A streaming HTTP response: status, `Content-Type` header (when
present), the result of `resp.json()` should tier 2 attempt it, and the
lines yielded by `resp.iter_lines(decode_unicode=True)`. -/
structure StreamResp where
  status : Nat
  contentType : Option String
  body : Option Json
  lines : List String

/-- The world a call runs in: the environment and the network/JSON
oracles.  A `none` response models `requests.post` raising (timeout,
connection error); the oracles are functions of the request payload so
that identical requests receive identical responses. -/
structure World where
  env : Env
  blockRespond : Req → Option BlockResp
  streamRespond : Req → Option StreamResp
  jsonParse : String → Option Json

/-- Result of a blocking completion call: the returned text and the
number of HTTP requests issued. -/
structure GenResult where
  text : String
  requests : Nat
deriving Repr, DecidableEq

/-- Result of a streaming completion call: the returned text, the ordered
`on_delta` invocation payloads, the number of HTTP requests issued, the
configuration after the call, the values written to `llm.use_streaming`,
whether the blocking client was invoked as a fallback, and whether the
call ended through the cancellation checkpoint. -/
structure StreamResult where
  text : String
  deltas : List String
  requests : Nat
  cfg : Config
  gateWrites : List Bool
  fellBack : Bool
  cancelled : Bool
deriving Repr, DecidableEq

/-! ## Credential and model resolution (per provider) -/

/-- `os.getenv('OPENAI_API_KEY') or ''`. -/
def openaiKeyOf (w : World) : String := pyOrS w.env.openaiKey ""

/-- `os.getenv('OPENROUTER_API_KEY') or ''`. -/
def openrouterKeyOf (w : World) : String := pyOrS w.env.openrouterKey ""

/-- `model or configured_model or os.getenv('OPENAI_MODEL') or 'gpt-4o-mini'`. -/
def openaiChosenModel (cfg : Config) (w : World) (model? : Option String) : String :=
  pyOrS model? (pyOrS cfg.openai.model (pyOrS w.env.openaiModel "gpt-4o-mini"))

/-- `model or configured_model or os.getenv('OPENROUTER_MODEL') or
'google/gemini-2.0-flash-exp:free'`. -/
def openrouterChosenModel (cfg : Config) (w : World) (model? : Option String) : String :=
  pyOrS model? (pyOrS cfg.openrouter.model
    (pyOrS w.env.openrouterModel "google/gemini-2.0-flash-exp:free"))

/-- The rendered user turn for the `openai` section. -/
def openaiUserContent (cfg : Config) (ctx instr : String) : String :=
  renderUserContent (pyOrS cfg.openai.userPrompt defaultUserTemplate) ctx instr

/-- The rendered user turn for the `openrouter` section. -/
def openrouterUserContent (cfg : Config) (ctx instr : String) : String :=
  renderUserContent (pyOrS cfg.openrouter.userPrompt defaultUserTemplate) ctx instr

/-- The assembled message list for an `openai` call. -/
def openaiMessages (cfg : Config) (ctx instr : String) (hist : List Msg) : List Msg :=
  buildMessages (pyOrS cfg.openai.systemPrompt defaultSystemPrompt)
    (openaiUserContent cfg ctx instr) hist

/-- The assembled message list for an `openrouter` call. -/
def openrouterMessages (cfg : Config) (ctx instr : String) (hist : List Msg) : List Msg :=
  buildMessages (pyOrS cfg.openrouter.systemPrompt defaultSystemPrompt)
    (openrouterUserContent cfg ctx instr) hist

/-! ## Blocking completion clients -/

/-- `generate_with_openai` (`openai_helper.py` lines 17-131): resolve key
and model; with no key return `''` without a request; otherwise assemble
the payload, POST it, and extract the first choice's trimmed content,
with every raise inside the `try` block resolving to `''`. -/
def generate_with_openai (cfg : Config) (w : World) (ctx instr : String)
    (model? : Option String) (hist : List Msg) : GenResult :=
  if openaiKeyOf w = "" then ⟨"", 0⟩
  else
    match w.blockRespond ⟨openaiChosenModel cfg w model?, openaiMessages cfg ctx instr hist⟩ with
    | none => ⟨"", 1⟩
    | some resp =>
      if resp.status ≠ 200 then ⟨"", 1⟩
      else
        match resp.body with
        | none => ⟨"", 1⟩
        | some data =>
          match extractBlocking data with
          | none => ⟨"", 1⟩
          | some t => ⟨t, 1⟩

/-- `generate_with_openrouter` (`openrouter_helper.py` lines 17-132):
identical control flow to `generate_with_openai` over the `openrouter`
credential, model default and config section. -/
def generate_with_openrouter (cfg : Config) (w : World) (ctx instr : String)
    (model? : Option String) (hist : List Msg) : GenResult :=
  if openrouterKeyOf w = "" then ⟨"", 0⟩
  else
    match w.blockRespond ⟨openrouterChosenModel cfg w model?, openrouterMessages cfg ctx instr hist⟩ with
    | none => ⟨"", 1⟩
    | some resp =>
      if resp.status ≠ 200 then ⟨"", 1⟩
      else
        match resp.body with
        | none => ⟨"", 1⟩
        | some data =>
          match extractBlocking data with
          | none => ⟨"", 1⟩
          | some t => ⟨t, 1⟩

/-! ## Streaming loop (tier 3) -/

/-- What the loop body does with one raw line, `openai_helper.py`
lines 315-339 = `openrouter_helper.py` lines 233-257:
skip falsy lines, strip, skip lines without the `data:` marker, strip the
marker, stop on the `[DONE]` sentinel, else parse JSON and extract
`choices[0].delta.content`; any raise inside the per-line `try` skips the
line (`continue`). -/
inductive LineAction where
  | skip
  | stop
  | piece (s : String)
deriving Repr, DecidableEq

def lineAction (jp : String → Option Json) (raw : String) : LineAction :=
  if raw = "" then .skip
  else
    let line := pyStrip raw
    if !pyStartsWith line "data:" then .skip
    else
      let d := pyStrip (pyDrop line 5)
      if d = "[DONE]" then .stop
      else
        match jp d with
        | none => .skip
        | some obj =>
          match obj.getOr "choices" (.arr []) with
          | none => .skip
          | some choices =>
            if !choices.truthy then .skip
            else
              match choices.index0 with
              | none => .skip
              | some c0 =>
                match c0.getOr "delta" (.obj []) with
                | none => .skip
                | some delta =>
                  match delta.dictGet "content" with
                  | none => .skip
                  | some contentJ =>
                    match (if contentJ.truthy then contentJ else .str "") with
                    | .str s => if s = "" then .skip else .piece s
                    | _ => .skip

/-- How the line loop ended: through the cancellation checkpoint, or by
exhausting the feed / hitting the sentinel. -/
inductive LoopExit where
  | cancelledE
  | doneE
deriving Repr, DecidableEq

structure LoopRes where
  text : String
  deltas : List String
  exit : LoopExit
deriving Repr, DecidableEq

/-- The `for raw_line in resp.iter_lines(..)` loop.  `cancel` is the
cooperative flag sampled at the checkpoint before processing the `i`-th
line (`none` when no flag object was passed — `stream_with_openrouter`
has no checkpoint at all, which coincides with a never-set flag).
`hasCb` is whether an `on_delta` callback was supplied; `cbRaises k`
is whether the `k`-th `on_delta` invocation raises — the source wraps
every invocation in `try/except: pass`, so the raise is swallowed: the
fragment has already been appended to `full_text` and the loop continues. -/
def streamLoop (jp : String → Option Json) (cancel : Option (Nat → Bool))
    (hasCb : Bool) (cbRaises : Nat → Bool) :
    List String → Nat → Nat → String → List String → LoopRes
  | [], _, _, acc, ds => ⟨acc, ds, .doneE⟩
  | l :: ls, i, k, acc, ds =>
    if (cancel.map (fun f => f i)).getD false then ⟨acc, ds, .cancelledE⟩
    else
      match lineAction jp l with
      | .skip => streamLoop jp cancel hasCb cbRaises ls (i + 1) k acc ds
      | .stop => ⟨acc, ds, .doneE⟩
      | .piece s =>
        if hasCb then
          -- full_text += s; try: on_delta(s) except: pass
          let _swallowed := cbRaises k
          streamLoop jp cancel hasCb cbRaises ls (i + 1) (k + 1) (acc ++ s) (ds ++ [s])
        else
          streamLoop jp cancel hasCb cbRaises ls (i + 1) k (acc ++ s) ds

/-! ## Streaming completion clients -/

/-- `if cfg.useStreaming is not False: set False` — the gate-disabling
block guarded by a non-empty fallback/parse result
(`openai_helper.py` lines 233-240, 258-265, 283-289, 352-358). -/
def gateAfter (cfg : Config) : Config :=
  if cfg.useStreaming ≠ some false then { cfg with useStreaming := some false } else cfg

def gateWritesMade (cfg : Config) : List Bool :=
  if cfg.useStreaming ≠ some false then [false] else []

/-- The fallback block shared verbatim by tiers 1, 2 and 4 of
`stream_with_openai` (lines 227-246, 277-295, 346-364): call
`generate_with_openai` with the same context/instructions, the resolved
model and the same history; when the fallback text is non-empty, disable
the streaming gate (unless already `False`) and forward the whole text
through `on_delta` once; return the fallback text.  `deltasBefore` are
the deltas already delivered by the streaming loop (tier 4 only; both
other tiers enter with none). -/
def openaiFallbackFinish (cfg : Config) (w : World) (ctx instr chosenModel : String)
    (hist : List Msg) (hasCb : Bool) (deltasBefore : List String) : StreamResult :=
  let g := generate_with_openai cfg w ctx instr (some chosenModel) hist
  if g.text ≠ "" then
    ⟨g.text, deltasBefore ++ (if hasCb then [g.text] else []), 1 + g.requests,
      gateAfter cfg, gateWritesMade cfg, true, false⟩
  else
    ⟨g.text, deltasBefore, 1 + g.requests, cfg, [], true, false⟩

/-- Tier 2 of `stream_with_openai` (lines 248-295): the server answered
200 but without an event-stream content type.  Try `resp.json()` and the
single-completion extraction; on non-empty text disable the gate, deliver
it once and return it; on any raise or empty text fall back to the
blocking client. -/
def openaiTier2 (cfg : Config) (w : World) (ctx instr chosenModel : String)
    (hist : List Msg) (hasCb : Bool) (body : Option Json) : StreamResult :=
  match body with
  | none => openaiFallbackFinish cfg w ctx instr chosenModel hist hasCb []
  | some data =>
    match extractTier2 data with
    | none => openaiFallbackFinish cfg w ctx instr chosenModel hist hasCb []
    | some t =>
      if t ≠ "" then
        ⟨t, (if hasCb then [t] else []), 1, gateAfter cfg, gateWritesMade cfg, false, false⟩
      else openaiFallbackFinish cfg w ctx instr chosenModel hist hasCb []

/-- Tiers 3 and 4 of `stream_with_openai` (lines 303-364): run the line
loop; if it ended through the cancellation checkpoint return the partial
text with no fallback and no gate write; if it ended with non-empty text
return it as-is; otherwise fall back to the blocking client. -/
def openaiSSE (cfg : Config) (w : World) (ctx instr chosenModel : String)
    (hist : List Msg) (hasCb : Bool) (cbRaises : Nat → Bool)
    (cancel : Option (Nat → Bool)) (lines : List String) : StreamResult :=
  let lr := streamLoop w.jsonParse cancel hasCb cbRaises lines 0 0 "" []
  match lr.exit with
  | .cancelledE => ⟨lr.text, lr.deltas, 1, cfg, [], false, true⟩
  | .doneE =>
    if lr.text ≠ "" then ⟨lr.text, lr.deltas, 1, cfg, [], false, false⟩
    else openaiFallbackFinish cfg w ctx instr chosenModel hist hasCb lr.deltas

/-- `stream_with_openai` (`openai_helper.py` lines 134-367). -/
def stream_with_openai (cfg : Config) (w : World) (ctx instr : String)
    (model? : Option String) (hist : List Msg) (hasCb : Bool)
    (cbRaises : Nat → Bool) (cancel : Option (Nat → Bool)) : StreamResult :=
  if openaiKeyOf w = "" then ⟨"", [], 0, cfg, [], false, false⟩
  else
    match w.streamRespond ⟨openaiChosenModel cfg w model?, openaiMessages cfg ctx instr hist⟩ with
    | none => ⟨"", [], 1, cfg, [], false, false⟩
    | some resp =>
      if resp.status ≠ 200 then
        openaiFallbackFinish cfg w ctx instr (openaiChosenModel cfg w model?) hist hasCb []
      else if pyContains (pyLower (pyOrS resp.contentType "")) "text/event-stream" = false then
        openaiTier2 cfg w ctx instr (openaiChosenModel cfg w model?) hist hasCb resp.body
      else
        openaiSSE cfg w ctx instr (openaiChosenModel cfg w model?) hist hasCb cbRaises
          cancel resp.lines

/-- `stream_with_openrouter` (`openrouter_helper.py` lines 135-264).
Unlike the OpenAI variant it accepts no cancellation flag, performs no
content-type check, and never invokes the blocking client: a non-success
status returns `''` directly (lines 221-223) and the accumulated text —
empty or not — is returned after the loop (lines 259-261). -/
def stream_with_openrouter (cfg : Config) (w : World) (ctx instr : String)
    (model? : Option String) (hist : List Msg) (hasCb : Bool)
    (cbRaises : Nat → Bool) : StreamResult :=
  if openrouterKeyOf w = "" then ⟨"", [], 0, cfg, [], false, false⟩
  else
    match w.streamRespond ⟨openrouterChosenModel cfg w model?, openrouterMessages cfg ctx instr hist⟩ with
    | none => ⟨"", [], 1, cfg, [], false, false⟩
    | some resp =>
      if resp.status ≠ 200 then ⟨"", [], 1, cfg, [], false, false⟩
      else
        let lr := streamLoop w.jsonParse none hasCb cbRaises resp.lines 0 0 "" []
        ⟨lr.text, lr.deltas, 1, cfg, [], false, false⟩

/-! ## Provider router (`llm_helper.py`) -/

/-- `(get_config_value('llm','provider') or 'openrouter').strip().lower()`. -/
def routedProvider (cfg : Config) : String :=
  pyLower (pyStrip (pyOrS cfg.provider "openrouter"))

/-- `generate_with_llm` (`llm_helper.py` lines 8-18). -/
def generate_with_llm (cfg : Config) (w : World) (ctx instr : String)
    (model? : Option String) (hist : List Msg) : GenResult :=
  if routedProvider cfg = "openai" then generate_with_openai cfg w ctx instr model? hist
  else generate_with_openrouter cfg w ctx instr model? hist

/-- `stream_with_llm` (`llm_helper.py` lines 21-34); note the router never
passes a cancellation flag to `stream_with_openai`. -/
def stream_with_llm (cfg : Config) (w : World) (ctx instr : String)
    (model? : Option String) (hist : List Msg) (hasCb : Bool)
    (cbRaises : Nat → Bool) : StreamResult :=
  if routedProvider cfg = "openai" then
    stream_with_openai cfg w ctx instr model? hist hasCb cbRaises none
  else stream_with_openrouter cfg w ctx instr model? hist hasCb cbRaises

/-! ## Concrete fixtures used by counterexamples and witnesses -/

/-- An all-defaults configuration store. -/
def cfg0 : Config := ⟨none, none, ⟨none, none, none⟩, ⟨none, none, none⟩⟩

/-- A single-completion response body `\x7bchoices: [\x7bmessage: \x7bcontent: t\x7d\x7d]\x7d`. -/
def msgJson (t : String) : Json :=
  .obj [("choices", .arr [.obj [("message", .obj [("content", .str t)])]])]

/-- A streamed event body `\x7bchoices: [\x7bdelta: \x7bcontent: t\x7d\x7d]\x7d`. -/
def deltaJson (t : String) : Json :=
  .obj [("choices", .arr [.obj [("delta", .obj [("content", .str t)])]])]

/-- Environment with both provider credentials configured. -/
def envK : Env := ⟨some "sk-test", none, some "or-test", none⟩

/-- A JSON-parse oracle for the line fixtures: payload `A` is the
fragment `"Hel"`, payload `B` the fragment `"lo"`, everything else is
malformed. -/
def jpAB : String → Option Json :=
  fun s => if s = "A" then some (deltaJson "Hel")
    else if s = "B" then some (deltaJson "lo") else none

/-- World in which the streaming POST yields HTTP 500 while the blocking
POST yields a completion with content `"Hi"`. -/
def w500 : World :=
  ⟨envK, fun _ => some ⟨200, some (msgJson "Hi")⟩, fun _ => some ⟨500, none, none, []⟩,
    fun _ => none⟩

/-- World in which the streaming POST succeeds as an event stream but
delivers no lines, while the blocking POST yields `"Hi"`. -/
def wEmpty : World :=
  ⟨envK, fun _ => some ⟨200, some (msgJson "Hi")⟩,
    fun _ => some ⟨200, some "text/event-stream", none, []⟩, fun _ => none⟩

/-- World in which the streaming POST yields the event lines
`data: A`, `data: B`, `data: [DONE]` (fragments `"Hel"`, `"lo"`). -/
def wLines : World :=
  ⟨envK, fun _ => some ⟨200, some (msgJson "Hi")⟩,
    fun _ => some ⟨200, some "text/event-stream", none,
      ["data: A", "data: B", "data: [DONE]"]⟩, jpAB⟩

/-- Never-raising callback behaviour. -/
def noRaise : Nat → Bool := fun _ => false

/-- Message assembly as claim C5 words it (for comparison with
`buildMessages`): the middle entries are exactly the history entries
whose role is exactly `user` or `assistant` and whose trimmed content is
non-empty, kept verbatim in their original relative order. -/
def assembleClaimC5 (systemPrompt userContent : String) (history : List Msg) : List Msg :=
  ⟨"system", systemPrompt⟩ ::
    (history.filter (fun m =>
        (m.role = "user" || m.role = "assistant") && pyStrip m.content != "")
      ++ [⟨"user", userContent⟩])

/-- `sub` occurs verbatim inside `s`. -/
def SubstringOf (sub s : String) : Prop := ∃ p q, s = p ++ sub ++ q

/-- `l` is a well-formed delta event line carrying the non-empty fragment
`f` under the parse oracle `jp`: non-blank, `data:`-prefixed, not the
sentinel, and its payload parses to a one-choice delta object. -/
def IsDeltaLine (jp : String → Option Json) (l f : String) : Prop :=
  l ≠ "" ∧ pyStartsWith (pyStrip l) "data:" = true ∧
  pyStrip (pyDrop (pyStrip l) 5) ≠ "[DONE]" ∧
  jp (pyStrip (pyDrop (pyStrip l) 5)) = some (deltaJson f) ∧ f ≠ ""

/-- `l` is a data line (non-blank, `data:`-prefixed, not the sentinel)
whose payload fails to parse as JSON. -/
def IsMalformedDataLine (jp : String → Option Json) (l : String) : Prop :=
  l ≠ "" ∧ pyStartsWith (pyStrip l) "data:" = true ∧
  pyStrip (pyDrop (pyStrip l) 5) ≠ "[DONE]" ∧
  jp (pyStrip (pyDrop (pyStrip l) 5)) = none

/-- The per-call arguments of one routed streaming call (the threaded
configuration is kept separate so sequences of calls can be folded). -/
structure CallArgs where
  w : World
  ctx : String
  instr : String
  model? : Option String
  hist : List Msg
  hasCb : Bool
  cbRaises : Nat → Bool

/-- Run a sequence of routed streaming calls, threading the configuration
(and hence the `llm.use_streaming` gate) from call to call. -/
def runStreamSeq (calls : List CallArgs) (cfg : Config) : Config :=
  calls.foldl
    (fun c a => (stream_with_llm c a.w a.ctx a.instr a.model? a.hist a.hasCb a.cbRaises).cfg) cfg

/-- Configuration whose `openai.user_prompt` is a template with no
replacement field at all. -/
def cfgT : Config := ⟨none, none, ⟨none, none, some "Hello"⟩, ⟨none, none, none⟩⟩

/-- Configuration routing to the `openai` provider. -/
def cfgOpenaiP : Config := ⟨some "openai", none, ⟨none, none, none⟩, ⟨none, none, none⟩⟩

/-- World with no credential configured for either provider. -/
def wNoKey : World :=
  ⟨⟨none, none, some "", none⟩, fun _ => some ⟨200, some (msgJson "Hi")⟩,
    fun _ => some ⟨200, some "text/event-stream", none, ["data: A", "data: [DONE]"]⟩, jpAB⟩

/-- World for the cancellation scenario: two delta lines, then a third
line and the sentinel. -/
def wCancel : World :=
  ⟨envK, fun _ => some ⟨200, some (msgJson "Hi")⟩,
    fun _ => some ⟨200, some "text/event-stream", none,
      ["data: A", "data: B", "data: ?", "data: [DONE]"]⟩, jpAB⟩

/-- Configuration in which the streaming gate is already disabled. -/
def cfgDisabled : Config := ⟨none, some false, ⟨none, none, none⟩, ⟨none, none, none⟩⟩

/-- World in which every network request raises. -/
def wDown : World := ⟨envK, fun _ => none, fun _ => none, fun _ => none⟩

/-! ## Helper lemmas -/

theorem strEmpty_append (s : String) : "" ++ s = s := by
  apply String.ext
  simp [String.data_append]

theorem strAppend_assoc (a b c : String) : a ++ b ++ c = a ++ (b ++ c) := by
  apply String.ext
  simp [String.data_append]

/-- One loop iteration appends the projection of the entry. -/
theorem buildStep_eq (acc : List Msg) (m : Msg) :
    buildStep acc m = acc ++ (keepTurn m).toList := by
  rw [buildStep, keepTurn]
  split
  · rfl
  · simp

/-- The history fold of `buildMessages` is an append of the kept, trimmed
turns. -/
theorem buildMessages_foldl (hist : List Msg) (init : List Msg) :
    hist.foldl buildStep init = init ++ hist.filterMap keepTurn := by
  induction hist generalizing init with
  | nil => simp
  | cons m t ih =>
    rw [List.foldl_cons, buildStep_eq, ih, List.filterMap_cons]
    cases keepTurn m <;> simp

/-- The gate-disabling block always leaves the flag at `some false`. -/
theorem gateAfter_useStreaming (cfg : Config) : (gateAfter cfg).useStreaming = some false := by
  rw [gateAfter]
  split
  · rfl
  · next h => exact not_not.mp h

/-- The gate-disabling block never touches the other configuration keys. -/
theorem gateAfter_of_disabled (cfg : Config) (h : cfg.useStreaming = some false) :
    gateAfter cfg = cfg := by
  rw [gateAfter, if_neg]
  simp [h]

theorem gateWritesMade_false (cfg : Config) (b : Bool) (hb : b ∈ gateWritesMade cfg) :
    b = false := by
  rw [gateWritesMade] at hb
  split at hb <;> simp_all

/-- The shared fallback block returns exactly the blocking client's text. -/
theorem ff_text (cfg : Config) (w : World) (ctx instr cm : String) (hist : List Msg)
    (cb : Bool) (ds : List String) :
    (openaiFallbackFinish cfg w ctx instr cm hist cb ds).text =
      (generate_with_openai cfg w ctx instr (some cm) hist).text := by
  rw [openaiFallbackFinish]
  split <;> rfl

theorem ff_fellBack (cfg : Config) (w : World) (ctx instr cm : String) (hist : List Msg)
    (cb : Bool) (ds : List String) :
    (openaiFallbackFinish cfg w ctx instr cm hist cb ds).fellBack = true := by
  rw [openaiFallbackFinish]
  split <;> rfl

theorem ff_cancelled (cfg : Config) (w : World) (ctx instr cm : String) (hist : List Msg)
    (cb : Bool) (ds : List String) :
    (openaiFallbackFinish cfg w ctx instr cm hist cb ds).cancelled = false := by
  rw [openaiFallbackFinish]
  split <;> rfl

theorem ff_requests (cfg : Config) (w : World) (ctx instr cm : String) (hist : List Msg)
    (cb : Bool) (ds : List String) :
    (openaiFallbackFinish cfg w ctx instr cm hist cb ds).requests =
      1 + (generate_with_openai cfg w ctx instr (some cm) hist).requests := by
  rw [openaiFallbackFinish]
  split <;> rfl

/-- When the blocking fallback produced text, the gate ends disabled. -/
theorem ff_gate_disabled (cfg : Config) (w : World) (ctx instr cm : String) (hist : List Msg)
    (cb : Bool) (ds : List String)
    (h : (generate_with_openai cfg w ctx instr (some cm) hist).text ≠ "") :
    (openaiFallbackFinish cfg w ctx instr cm hist cb ds).cfg.useStreaming = some false := by
  rw [openaiFallbackFinish]
  simp only [if_pos h]
  exact gateAfter_useStreaming cfg

theorem ff_cfg_cases (cfg : Config) (w : World) (ctx instr cm : String) (hist : List Msg)
    (cb : Bool) (ds : List String) :
    (openaiFallbackFinish cfg w ctx instr cm hist cb ds).cfg = cfg ∨
      (openaiFallbackFinish cfg w ctx instr cm hist cb ds).cfg = gateAfter cfg := by
  rw [openaiFallbackFinish]
  split
  · right; rfl
  · left; rfl

theorem ff_writes_cases (cfg : Config) (w : World) (ctx instr cm : String) (hist : List Msg)
    (cb : Bool) (ds : List String) :
    (openaiFallbackFinish cfg w ctx instr cm hist cb ds).gateWrites = [] ∨
      (openaiFallbackFinish cfg w ctx instr cm hist cb ds).gateWrites = gateWritesMade cfg := by
  rw [openaiFallbackFinish]
  split
  · right; rfl
  · left; rfl

/-- The blocking client issues at most one request. -/
theorem generate_openai_requests_le (cfg : Config) (w : World) (ctx instr : String)
    (m? : Option String) (hist : List Msg) :
    (generate_with_openai cfg w ctx instr m? hist).requests ≤ 1 := by
  rw [generate_with_openai]
  repeat' split
  all_goals simp

theorem generate_openrouter_requests_le (cfg : Config) (w : World) (ctx instr : String)
    (m? : Option String) (hist : List Msg) :
    (generate_with_openrouter cfg w ctx instr m? hist).requests ≤ 1 := by
  rw [generate_with_openrouter]
  repeat' split
  all_goals simp

/-! ### Stage-unfolding lemmas for the streaming clients -/

theorem stream_openai_noKey (cfg : Config) (w : World) (ctx instr : String)
    (m? : Option String) (hist : List Msg) (cb : Bool) (r : Nat → Bool)
    (can : Option (Nat → Bool)) (h : openaiKeyOf w = "") :
    stream_with_openai cfg w ctx instr m? hist cb r can = ⟨"", [], 0, cfg, [], false, false⟩ := by
  rw [stream_with_openai, if_pos h]

theorem stream_openai_raise (cfg : Config) (w : World) (ctx instr : String)
    (m? : Option String) (hist : List Msg) (cb : Bool) (r : Nat → Bool)
    (can : Option (Nat → Bool)) (h : openaiKeyOf w ≠ "")
    (hr : w.streamRespond ⟨openaiChosenModel cfg w m?, openaiMessages cfg ctx instr hist⟩ = none) :
    stream_with_openai cfg w ctx instr m? hist cb r can = ⟨"", [], 1, cfg, [], false, false⟩ := by
  rw [stream_with_openai, if_neg h, hr]

theorem stream_openai_tier1 (cfg : Config) (w : World) (ctx instr : String)
    (m? : Option String) (hist : List Msg) (cb : Bool) (r : Nat → Bool)
    (can : Option (Nat → Bool)) (sr : StreamResp) (h : openaiKeyOf w ≠ "")
    (hsr : w.streamRespond ⟨openaiChosenModel cfg w m?, openaiMessages cfg ctx instr hist⟩ = some sr)
    (hst : sr.status ≠ 200) :
    stream_with_openai cfg w ctx instr m? hist cb r can =
      openaiFallbackFinish cfg w ctx instr (openaiChosenModel cfg w m?) hist cb [] := by
  rw [stream_with_openai, if_neg h, hsr]
  simp only [if_pos hst]

theorem stream_openai_tier2_eq (cfg : Config) (w : World) (ctx instr : String)
    (m? : Option String) (hist : List Msg) (cb : Bool) (r : Nat → Bool)
    (can : Option (Nat → Bool)) (sr : StreamResp) (h : openaiKeyOf w ≠ "")
    (hsr : w.streamRespond ⟨openaiChosenModel cfg w m?, openaiMessages cfg ctx instr hist⟩ = some sr)
    (hst : sr.status = 200)
    (hct : pyContains (pyLower (pyOrS sr.contentType "")) "text/event-stream" = false) :
    stream_with_openai cfg w ctx instr m? hist cb r can =
      openaiTier2 cfg w ctx instr (openaiChosenModel cfg w m?) hist cb sr.body := by
  rw [stream_with_openai, if_neg h, hsr]
  simp only [hst, hct]
  simp

theorem stream_openai_sse_eq (cfg : Config) (w : World) (ctx instr : String)
    (m? : Option String) (hist : List Msg) (cb : Bool) (r : Nat → Bool)
    (can : Option (Nat → Bool)) (sr : StreamResp) (h : openaiKeyOf w ≠ "")
    (hsr : w.streamRespond ⟨openaiChosenModel cfg w m?, openaiMessages cfg ctx instr hist⟩ = some sr)
    (hst : sr.status = 200)
    (hct : pyContains (pyLower (pyOrS sr.contentType "")) "text/event-stream" = true) :
    stream_with_openai cfg w ctx instr m? hist cb r can =
      openaiSSE cfg w ctx instr (openaiChosenModel cfg w m?) hist cb r can sr.lines := by
  rw [stream_with_openai, if_neg h, hsr]
  simp only [hst, hct]
  simp

theorem stream_openrouter_noKey (cfg : Config) (w : World) (ctx instr : String)
    (m? : Option String) (hist : List Msg) (cb : Bool) (r : Nat → Bool)
    (h : openrouterKeyOf w = "") :
    stream_with_openrouter cfg w ctx instr m? hist cb r = ⟨"", [], 0, cfg, [], false, false⟩ := by
  rw [stream_with_openrouter, if_pos h]

theorem stream_openrouter_raise (cfg : Config) (w : World) (ctx instr : String)
    (m? : Option String) (hist : List Msg) (cb : Bool) (r : Nat → Bool)
    (h : openrouterKeyOf w ≠ "")
    (hr : w.streamRespond ⟨openrouterChosenModel cfg w m?, openrouterMessages cfg ctx instr hist⟩ = none) :
    stream_with_openrouter cfg w ctx instr m? hist cb r = ⟨"", [], 1, cfg, [], false, false⟩ := by
  rw [stream_with_openrouter, if_neg h, hr]

theorem stream_openrouter_non200 (cfg : Config) (w : World) (ctx instr : String)
    (m? : Option String) (hist : List Msg) (cb : Bool) (r : Nat → Bool)
    (sr : StreamResp) (h : openrouterKeyOf w ≠ "")
    (hsr : w.streamRespond ⟨openrouterChosenModel cfg w m?, openrouterMessages cfg ctx instr hist⟩ = some sr)
    (hst : sr.status ≠ 200) :
    stream_with_openrouter cfg w ctx instr m? hist cb r = ⟨"", [], 1, cfg, [], false, false⟩ := by
  rw [stream_with_openrouter, if_neg h, hsr]
  simp only [if_pos hst]

theorem stream_openrouter_ok (cfg : Config) (w : World) (ctx instr : String)
    (m? : Option String) (hist : List Msg) (cb : Bool) (r : Nat → Bool)
    (sr : StreamResp) (h : openrouterKeyOf w ≠ "")
    (hsr : w.streamRespond ⟨openrouterChosenModel cfg w m?, openrouterMessages cfg ctx instr hist⟩ = some sr)
    (hst : sr.status = 200) :
    stream_with_openrouter cfg w ctx instr m? hist cb r =
      ⟨(streamLoop w.jsonParse none cb r sr.lines 0 0 "" []).text,
        (streamLoop w.jsonParse none cb r sr.lines 0 0 "" []).deltas, 1, cfg, [], false, false⟩ := by
  rw [stream_with_openrouter, if_neg h, hsr]
  simp [hst]

/-! ### Loop lemmas -/

theorem streamLoop_nil (jp : String → Option Json) (can : Option (Nat → Bool)) (cb : Bool)
    (r : Nat → Bool) (i k : Nat) (acc : String) (ds : List String) :
    streamLoop jp can cb r [] i k acc ds = ⟨acc, ds, .doneE⟩ := by
  rw [streamLoop]

theorem streamLoop_cancelled (jp : String → Option Json) (can : Option (Nat → Bool)) (cb : Bool)
    (r : Nat → Bool) (l : String) (ls : List String) (i k : Nat) (acc : String) (ds : List String)
    (hc : (can.map (fun f => f i)).getD false = true) :
    streamLoop jp can cb r (l :: ls) i k acc ds = ⟨acc, ds, .cancelledE⟩ := by
  rw [streamLoop, if_pos hc]

theorem streamLoop_skip (jp : String → Option Json) (can : Option (Nat → Bool)) (cb : Bool)
    (r : Nat → Bool) (l : String) (ls : List String) (i k : Nat) (acc : String) (ds : List String)
    (hc : (can.map (fun f => f i)).getD false = false) (ha : lineAction jp l = .skip) :
    streamLoop jp can cb r (l :: ls) i k acc ds = streamLoop jp can cb r ls (i + 1) k acc ds := by
  rw [streamLoop, if_neg (by simp [hc]), ha]

theorem streamLoop_stop (jp : String → Option Json) (can : Option (Nat → Bool)) (cb : Bool)
    (r : Nat → Bool) (l : String) (ls : List String) (i k : Nat) (acc : String) (ds : List String)
    (hc : (can.map (fun f => f i)).getD false = false) (ha : lineAction jp l = .stop) :
    streamLoop jp can cb r (l :: ls) i k acc ds = ⟨acc, ds, .doneE⟩ := by
  rw [streamLoop, if_neg (by simp [hc]), ha]

theorem streamLoop_piece (jp : String → Option Json) (can : Option (Nat → Bool))
    (r : Nat → Bool) (l s : String) (ls : List String) (i k : Nat) (acc : String) (ds : List String)
    (hc : (can.map (fun f => f i)).getD false = false) (ha : lineAction jp l = .piece s) :
    streamLoop jp can true r (l :: ls) i k acc ds =
      streamLoop jp can true r ls (i + 1) (k + 1) (acc ++ s) (ds ++ [s]) := by
  rw [streamLoop, if_neg (by simp [hc]), ha]
  simp

/-- The callback raise pattern never influences the loop result: each
`on_delta` invocation is wrapped in `try/except: pass` after the fragment
has already been appended. -/
theorem streamLoop_r_indep (jp : String → Option Json) (can : Option (Nat → Bool)) (cb : Bool)
    (r1 r2 : Nat → Bool) :
    ∀ (ls : List String) (i k : Nat) (acc : String) (ds : List String),
      streamLoop jp can cb r1 ls i k acc ds = streamLoop jp can cb r2 ls i k acc ds := by
  intro ls
  induction ls with
  | nil => intro i k acc ds; rfl
  | cons l t ih =>
    intro i k acc ds
    rw [streamLoop, streamLoop]
    split
    · rfl
    · cases lineAction jp l with
      | skip => exact ih _ _ _ _
      | stop => rfl
      | piece s =>
        cases cb with
        | true => simp only [if_true]; exact ih _ _ _ _
        | false => simp only [Bool.false_eq_true, if_false]; exact ih _ _ _ _

/-! ### Line-shape lemmas -/

theorem lineAction_of_delta (jp : String → Option Json) (l f : String)
    (h : IsDeltaLine jp l f) : lineAction jp l = .piece f := by
  obtain ⟨h1, h2, h3, h4, h5⟩ := h
  rw [lineAction, if_neg h1]
  simp only [h2, h3, h4, Bool.not_true, Bool.false_eq_true, if_false, if_neg h3]
  simp [deltaJson, Json.getOr, Json.dictGet, Json.truthy, Json.index0, h5]

theorem lineAction_of_malformed (jp : String → Option Json) (l : String)
    (h : IsMalformedDataLine jp l) : lineAction jp l = .skip := by
  obtain ⟨h1, h2, h3, h4⟩ := h
  rw [lineAction, if_neg h1]
  simp only [h2, h3, h4, Bool.not_true, Bool.false_eq_true, if_false, if_neg h3]

/-! ### Tier-2 and SSE stage lemmas -/

theorem tier2_body_none (cfg : Config) (w : World) (ctx instr cm : String) (hist : List Msg)
    (cb : Bool) :
    openaiTier2 cfg w ctx instr cm hist cb none =
      openaiFallbackFinish cfg w ctx instr cm hist cb [] := rfl

theorem tier2_extract_fail (cfg : Config) (w : World) (ctx instr cm : String) (hist : List Msg)
    (cb : Bool) (d : Json) (hd : extractTier2 d = none) :
    openaiTier2 cfg w ctx instr cm hist cb (some d) =
      openaiFallbackFinish cfg w ctx instr cm hist cb [] := by
  rw [openaiTier2, hd]

theorem tier2_extract_some (cfg : Config) (w : World) (ctx instr cm : String) (hist : List Msg)
    (cb : Bool) (d : Json) (t : String) (hd : extractTier2 d = some t) (ht : t ≠ "") :
    openaiTier2 cfg w ctx instr cm hist cb (some d) =
      ⟨t, (if cb then [t] else []), 1, gateAfter cfg, gateWritesMade cfg, false, false⟩ := by
  rw [openaiTier2, hd]
  simp only [if_pos ht]

theorem tier2_extract_empty (cfg : Config) (w : World) (ctx instr cm : String) (hist : List Msg)
    (cb : Bool) (d : Json) (hd : extractTier2 d = some "") :
    openaiTier2 cfg w ctx instr cm hist cb (some d) =
      openaiFallbackFinish cfg w ctx instr cm hist cb [] := by
  rw [openaiTier2, hd]
  simp

theorem sse_cancelled (cfg : Config) (w : World) (ctx instr cm : String) (hist : List Msg)
    (cb : Bool) (r : Nat → Bool) (can : Option (Nat → Bool)) (lines : List String)
    (hl : (streamLoop w.jsonParse can cb r lines 0 0 "" []).exit = .cancelledE) :
    openaiSSE cfg w ctx instr cm hist cb r can lines =
      ⟨(streamLoop w.jsonParse can cb r lines 0 0 "" []).text,
        (streamLoop w.jsonParse can cb r lines 0 0 "" []).deltas, 1, cfg, [], false, true⟩ := by
  rw [openaiSSE]
  simp only [hl]

theorem sse_done_text (cfg : Config) (w : World) (ctx instr cm : String) (hist : List Msg)
    (cb : Bool) (r : Nat → Bool) (can : Option (Nat → Bool)) (lines : List String)
    (hl : (streamLoop w.jsonParse can cb r lines 0 0 "" []).exit = .doneE)
    (ht : (streamLoop w.jsonParse can cb r lines 0 0 "" []).text ≠ "") :
    openaiSSE cfg w ctx instr cm hist cb r can lines =
      ⟨(streamLoop w.jsonParse can cb r lines 0 0 "" []).text,
        (streamLoop w.jsonParse can cb r lines 0 0 "" []).deltas, 1, cfg, [], false, false⟩ := by
  rw [openaiSSE]
  simp only [hl, if_pos ht]

theorem sse_done_empty (cfg : Config) (w : World) (ctx instr cm : String) (hist : List Msg)
    (cb : Bool) (r : Nat → Bool) (can : Option (Nat → Bool)) (lines : List String)
    (hl : (streamLoop w.jsonParse can cb r lines 0 0 "" []).exit = .doneE)
    (ht : (streamLoop w.jsonParse can cb r lines 0 0 "" []).text = "") :
    openaiSSE cfg w ctx instr cm hist cb r can lines =
      openaiFallbackFinish cfg w ctx instr cm hist cb
        (streamLoop w.jsonParse can cb r lines 0 0 "" []).deltas := by
  rw [openaiSSE]
  simp only [hl, ht]
  simp

/-! ### Gate-shape lemmas for the whole streaming clients -/

theorem tier2_cfg_cases (cfg : Config) (w : World) (ctx instr cm : String) (hist : List Msg)
    (cb : Bool) (body : Option Json) :
    (openaiTier2 cfg w ctx instr cm hist cb body).cfg = cfg ∨
      (openaiTier2 cfg w ctx instr cm hist cb body).cfg = gateAfter cfg := by
  match body with
  | none => exact ff_cfg_cases cfg w ctx instr cm hist cb []
  | some d =>
    match hd : extractTier2 d with
    | none =>
      rw [tier2_extract_fail cfg w ctx instr cm hist cb d hd]
      exact ff_cfg_cases cfg w ctx instr cm hist cb []
    | some t =>
      by_cases ht : t ≠ ""
      · rw [tier2_extract_some cfg w ctx instr cm hist cb d t hd ht]; right; rfl
      · have ht2 : t = "" := not_ne_iff.mp ht
        subst ht2
        rw [tier2_extract_empty cfg w ctx instr cm hist cb d hd]
        exact ff_cfg_cases cfg w ctx instr cm hist cb []

theorem sse_cfg_cases (cfg : Config) (w : World) (ctx instr cm : String) (hist : List Msg)
    (cb : Bool) (r : Nat → Bool) (can : Option (Nat → Bool)) (lines : List String) :
    (openaiSSE cfg w ctx instr cm hist cb r can lines).cfg = cfg ∨
      (openaiSSE cfg w ctx instr cm hist cb r can lines).cfg = gateAfter cfg := by
  rw [openaiSSE]
  match (streamLoop w.jsonParse can cb r lines 0 0 "" []).exit with
  | .cancelledE => left; rfl
  | .doneE =>
    by_cases ht : (streamLoop w.jsonParse can cb r lines 0 0 "" []).text ≠ ""
    · rw [if_pos ht]; left; rfl
    · rw [if_neg ht]
      exact ff_cfg_cases cfg w ctx instr cm hist cb _

theorem stream_openai_cfg_cases (cfg : Config) (w : World) (ctx instr : String)
    (m? : Option String) (hist : List Msg) (cb : Bool) (r : Nat → Bool)
    (can : Option (Nat → Bool)) :
    (stream_with_openai cfg w ctx instr m? hist cb r can).cfg = cfg ∨
      (stream_with_openai cfg w ctx instr m? hist cb r can).cfg = gateAfter cfg := by
  rw [stream_with_openai]
  split
  · left; rfl
  · split
    · left; rfl
    · split
      · exact ff_cfg_cases _ _ _ _ _ _ _ _
      · split
        · exact tier2_cfg_cases _ _ _ _ _ _ _ _
        · exact sse_cfg_cases _ _ _ _ _ _ _ _ _ _

theorem tier2_writes_cases (cfg : Config) (w : World) (ctx instr cm : String) (hist : List Msg)
    (cb : Bool) (body : Option Json) :
    (openaiTier2 cfg w ctx instr cm hist cb body).gateWrites = [] ∨
      (openaiTier2 cfg w ctx instr cm hist cb body).gateWrites = gateWritesMade cfg := by
  match body with
  | none => exact ff_writes_cases cfg w ctx instr cm hist cb []
  | some d =>
    match hd : extractTier2 d with
    | none =>
      rw [tier2_extract_fail cfg w ctx instr cm hist cb d hd]
      exact ff_writes_cases cfg w ctx instr cm hist cb []
    | some t =>
      by_cases ht : t ≠ ""
      · rw [tier2_extract_some cfg w ctx instr cm hist cb d t hd ht]; right; rfl
      · have ht2 : t = "" := not_ne_iff.mp ht
        subst ht2
        rw [tier2_extract_empty cfg w ctx instr cm hist cb d hd]
        exact ff_writes_cases cfg w ctx instr cm hist cb []

theorem sse_writes_cases (cfg : Config) (w : World) (ctx instr cm : String) (hist : List Msg)
    (cb : Bool) (r : Nat → Bool) (can : Option (Nat → Bool)) (lines : List String) :
    (openaiSSE cfg w ctx instr cm hist cb r can lines).gateWrites = [] ∨
      (openaiSSE cfg w ctx instr cm hist cb r can lines).gateWrites = gateWritesMade cfg := by
  rw [openaiSSE]
  match (streamLoop w.jsonParse can cb r lines 0 0 "" []).exit with
  | .cancelledE => left; rfl
  | .doneE =>
    by_cases ht : (streamLoop w.jsonParse can cb r lines 0 0 "" []).text ≠ ""
    · rw [if_pos ht]; left; rfl
    · rw [if_neg ht]
      exact ff_writes_cases cfg w ctx instr cm hist cb _

theorem stream_openai_writes_cases (cfg : Config) (w : World) (ctx instr : String)
    (m? : Option String) (hist : List Msg) (cb : Bool) (r : Nat → Bool)
    (can : Option (Nat → Bool)) :
    (stream_with_openai cfg w ctx instr m? hist cb r can).gateWrites = [] ∨
      (stream_with_openai cfg w ctx instr m? hist cb r can).gateWrites = gateWritesMade cfg := by
  rw [stream_with_openai]
  split
  · left; rfl
  · split
    · left; rfl
    · split
      · exact ff_writes_cases _ _ _ _ _ _ _ _
      · split
        · exact tier2_writes_cases _ _ _ _ _ _ _ _
        · exact sse_writes_cases _ _ _ _ _ _ _ _ _ _

theorem stream_openrouter_cfg_eq (cfg : Config) (w : World) (ctx instr : String)
    (m? : Option String) (hist : List Msg) (cb : Bool) (r : Nat → Bool) :
    (stream_with_openrouter cfg w ctx instr m? hist cb r).cfg = cfg := by
  rw [stream_with_openrouter]
  repeat' split
  all_goals rfl

theorem stream_openrouter_writes_eq (cfg : Config) (w : World) (ctx instr : String)
    (m? : Option String) (hist : List Msg) (cb : Bool) (r : Nat → Bool) :
    (stream_with_openrouter cfg w ctx instr m? hist cb r).gateWrites = [] := by
  rw [stream_with_openrouter]
  repeat' split
  all_goals rfl

theorem stream_openrouter_fellBack_eq (cfg : Config) (w : World) (ctx instr : String)
    (m? : Option String) (hist : List Msg) (cb : Bool) (r : Nat → Bool) :
    (stream_with_openrouter cfg w ctx instr m? hist cb r).fellBack = false := by
  rw [stream_with_openrouter]
  repeat' split
  all_goals rfl

/-- One routed streaming call either leaves the configuration untouched or
applies the gate-disabling write. -/
theorem stream_llm_cfg_cases (cfg : Config) (w : World) (ctx instr : String)
    (m? : Option String) (hist : List Msg) (cb : Bool) (r : Nat → Bool) :
    (stream_with_llm cfg w ctx instr m? hist cb r).cfg = cfg ∨
      (stream_with_llm cfg w ctx instr m? hist cb r).cfg = gateAfter cfg := by
  rw [stream_with_llm]
  split
  · exact stream_openai_cfg_cases _ _ _ _ _ _ _ _ _
  · left; exact stream_openrouter_cfg_eq _ _ _ _ _ _ _ _

/-! ### Request-count bounds -/

theorem ff_requests_le (cfg : Config) (w : World) (ctx instr cm : String) (hist : List Msg)
    (cb : Bool) (ds : List String) :
    (openaiFallbackFinish cfg w ctx instr cm hist cb ds).requests ≤ 2 := by
  rw [ff_requests]
  have := generate_openai_requests_le cfg w ctx instr (some cm) hist
  omega

theorem tier2_requests_le (cfg : Config) (w : World) (ctx instr cm : String) (hist : List Msg)
    (cb : Bool) (body : Option Json) :
    (openaiTier2 cfg w ctx instr cm hist cb body).requests ≤ 2 := by
  match body with
  | none => exact ff_requests_le _ _ _ _ _ _ _ _
  | some d =>
    match hd : extractTier2 d with
    | none =>
      rw [tier2_extract_fail cfg w ctx instr cm hist cb d hd]
      exact ff_requests_le _ _ _ _ _ _ _ _
    | some t =>
      by_cases ht : t ≠ ""
      · rw [tier2_extract_some cfg w ctx instr cm hist cb d t hd ht]; simp
      · have ht2 : t = "" := not_ne_iff.mp ht
        subst ht2
        rw [tier2_extract_empty cfg w ctx instr cm hist cb d hd]
        exact ff_requests_le _ _ _ _ _ _ _ _

theorem sse_requests_le (cfg : Config) (w : World) (ctx instr cm : String) (hist : List Msg)
    (cb : Bool) (r : Nat → Bool) (can : Option (Nat → Bool)) (lines : List String) :
    (openaiSSE cfg w ctx instr cm hist cb r can lines).requests ≤ 2 := by
  rw [openaiSSE]
  match (streamLoop w.jsonParse can cb r lines 0 0 "" []).exit with
  | .cancelledE => simp
  | .doneE =>
    by_cases ht : (streamLoop w.jsonParse can cb r lines 0 0 "" []).text ≠ ""
    · rw [if_pos ht]; simp
    · rw [if_neg ht]; exact ff_requests_le _ _ _ _ _ _ _ _

theorem stream_openai_requests_le (cfg : Config) (w : World) (ctx instr : String)
    (m? : Option String) (hist : List Msg) (cb : Bool) (r : Nat → Bool)
    (can : Option (Nat → Bool)) :
    (stream_with_openai cfg w ctx instr m? hist cb r can).requests ≤ 2 := by
  rw [stream_with_openai]
  split
  · simp
  · split
    · simp
    · split
      · exact ff_requests_le _ _ _ _ _ _ _ _
      · split
        · exact tier2_requests_le _ _ _ _ _ _ _ _
        · exact sse_requests_le _ _ _ _ _ _ _ _ _ _

/-- The callback raise pattern never influences the SSE stage. -/
theorem sse_r_indep (cfg : Config) (w : World) (ctx instr cm : String) (hist : List Msg)
    (cb : Bool) (r1 r2 : Nat → Bool) (can : Option (Nat → Bool)) (lines : List String) :
    openaiSSE cfg w ctx instr cm hist cb r1 can lines =
      openaiSSE cfg w ctx instr cm hist cb r2 can lines := by
  rw [openaiSSE, openaiSSE, streamLoop_r_indep w.jsonParse can cb r1 r2 lines 0 0 "" []]

/-- Once disabled, one routed streaming call cannot re-enable the gate. -/
theorem stream_llm_gate_mono (cfg : Config) (w : World) (ctx instr : String)
    (m? : Option String) (hist : List Msg) (cb : Bool) (r : Nat → Bool)
    (h : cfg.useStreaming = some false) :
    (stream_with_llm cfg w ctx instr m? hist cb r).cfg.useStreaming = some false := by
  rcases stream_llm_cfg_cases cfg w ctx instr m? hist cb r with hc | hc
  · rw [hc]; exact h
  · rw [hc]; exact gateAfter_useStreaming cfg

/-- Once disabled, no sequence of routed streaming calls re-enables the gate. -/
theorem runStreamSeq_mono (calls : List CallArgs) :
    ∀ cfg : Config, cfg.useStreaming = some false →
      (runStreamSeq calls cfg).useStreaming = some false := by
  induction calls with
  | nil => intro cfg h; exact h
  | cons a t ih =>
    intro cfg h
    have hstep : runStreamSeq (a :: t) cfg =
        runStreamSeq t ((stream_with_llm cfg a.w a.ctx a.instr a.model? a.hist a.hasCb a.cbRaises).cfg) := rfl
    rw [hstep]
    exact ih _ (stream_llm_gate_mono cfg a.w a.ctx a.instr a.model? a.hist a.hasCb a.cbRaises h)

/-! ## Claim theorems -/

/-- C5, counterexample: the assembled middle entries are not "exactly the
history entries whose role is exactly `user` or `assistant`": an entry
with role `" user "` (whitespace around the role) is excluded by that
reading but is included — in trimmed form — by the code. -/
theorem c5_counterexample :
    buildMessages "s" "u" [⟨" user ", "hi"⟩] =
      [⟨"system", "s"⟩, ⟨"user", "hi"⟩, ⟨"user", "u"⟩] ∧
    assembleClaimC5 "s" "u" [⟨" user ", "hi"⟩] = [⟨"system", "s"⟩, ⟨"user", "u"⟩] ∧
    buildMessages "s" "u" [⟨" user ", "hi"⟩] ≠ assembleClaimC5 "s" "u" [⟨" user ", "hi"⟩] := by
  refine ⟨by decide, by decide, by decide⟩

/-- C5, amended: for every system prompt, user content and history, the
assembled list is exactly the system turn, then — in original relative
order — one turn per history entry whose *trimmed* role is exactly `user`
or `assistant` and whose trimmed content is non-empty, carrying the
trimmed role and trimmed content, and the rendered user turn last. -/
theorem c5_assembly_order (sys uc : String) (hist : List Msg) :
    buildMessages sys uc hist =
      ⟨"system", sys⟩ :: (hist.filterMap keepTurn ++ [⟨"user", uc⟩]) := by
  rw [buildMessages, buildMessages_foldl]
  simp

/-- C3, counterexample: a configured user template that merely lacks the
`\x7binstructions\x7d` placeholder formats successfully (unused keyword
arguments do not make `str.format` raise), so assembly uses it as-is:
the result is not the fixed fallback layout and does not contain the
instructions text. -/
theorem c3_counterexample :
    openaiUserContent cfgT "ctx" "instr" = "Hello" ∧
    openaiUserContent cfgT "ctx" "instr" ≠ fallbackLayout "ctx" "instr" ∧
    pyContains (openaiUserContent cfgT "ctx" "instr") "instr" = false ∧
    pyContains "Hello" "\x7binstructions\x7d" = false := by
  refine ⟨by decide, by decide, by decide, by decide⟩

/-- C3, amended: whenever template substitution raises (unknown
placeholder, automatic/empty field, or malformed braces), assembly
degrades to the fixed fallback layout without raising, and that fallback
contains both the context and the instructions verbatim; when
substitution succeeds — in particular for a template that merely lacks a
placeholder — the rendered text is used unchanged. -/
theorem c3_template_fallback (tmpl ctx instr : String) :
    (pyFormat tmpl ctx instr = none →
      renderUserContent tmpl ctx instr = fallbackLayout ctx instr ∧
      SubstringOf ctx (renderUserContent tmpl ctx instr) ∧
      SubstringOf instr (renderUserContent tmpl ctx instr)) ∧
    (∀ s, pyFormat tmpl ctx instr = some s → renderUserContent tmpl ctx instr = s) := by
  constructor
  · intro h
    have hr : renderUserContent tmpl ctx instr = fallbackLayout ctx instr := by
      rw [renderUserContent, h]
    refine ⟨hr, ?_, ?_⟩
    · rw [hr]
      refine ⟨"CONTEXT:\n",
        "\n\nINSTRUCTIONS:\n" ++ instr ++ "\n\nPlease produce the final output now.", ?_⟩
      rw [fallbackLayout]
      simp only [strAppend_assoc]
    · rw [hr]
      refine ⟨"CONTEXT:\n" ++ ctx ++ "\n\nINSTRUCTIONS:\n",
        "\n\nPlease produce the final output now.", ?_⟩
      rw [fallbackLayout]
  · intro s h
    rw [renderUserContent, h]

/-- C3 witness: a template with an unknown placeholder raises and
degrades to the fallback layout. -/
theorem c3_template_fallback_witness :
    renderUserContent "\x7bfoo\x7d" "a" "b" = fallbackLayout "a" "b" ∧
    SubstringOf "a" (renderUserContent "\x7bfoo\x7d" "a" "b") ∧
    SubstringOf "b" (renderUserContent "\x7bfoo\x7d" "a" "b") :=
  (c3_template_fallback "\x7bfoo\x7d" "a" "b").1 (by decide)

/-- C4: with no provider credential configured (absent or empty
environment variable), the blocking and streaming clients of both
providers return the empty result, issue zero network requests, deliver
zero `on_delta` calls, and leave the configuration untouched. -/
theorem c4_missing_credential (cfg : Config) (w : World) (ctx instr : String)
    (m? : Option String) (hist : List Msg) (cb : Bool) (r : Nat → Bool)
    (can : Option (Nat → Bool))
    (hoa : w.env.openaiKey = none ∨ w.env.openaiKey = some "")
    (hor : w.env.openrouterKey = none ∨ w.env.openrouterKey = some "") :
    generate_with_openai cfg w ctx instr m? hist = ⟨"", 0⟩ ∧
    generate_with_openrouter cfg w ctx instr m? hist = ⟨"", 0⟩ ∧
    stream_with_openai cfg w ctx instr m? hist cb r can = ⟨"", [], 0, cfg, [], false, false⟩ ∧
    stream_with_openrouter cfg w ctx instr m? hist cb r = ⟨"", [], 0, cfg, [], false, false⟩ := by
  have h1 : openaiKeyOf w = "" := by
    rcases hoa with h | h <;> simp [openaiKeyOf, pyOrS, h]
  have h2 : openrouterKeyOf w = "" := by
    rcases hor with h | h <;> simp [openrouterKeyOf, pyOrS, h]
  refine ⟨?_, ?_, stream_openai_noKey cfg w ctx instr m? hist cb r can h1,
    stream_openrouter_noKey cfg w ctx instr m? hist cb r h2⟩
  · rw [generate_with_openai, if_pos h1]
  · rw [generate_with_openrouter, if_pos h2]

/-- C4 witness at a concrete credential-free world. -/
theorem c4_missing_credential_witness :
    generate_with_openai cfg0 wNoKey "c" "i" none [] = ⟨"", 0⟩ ∧
    generate_with_openrouter cfg0 wNoKey "c" "i" none [] = ⟨"", 0⟩ ∧
    stream_with_openai cfg0 wNoKey "c" "i" none [] true noRaise none =
      ⟨"", [], 0, cfg0, [], false, false⟩ ∧
    stream_with_openrouter cfg0 wNoKey "c" "i" none [] true noRaise =
      ⟨"", [], 0, cfg0, [], false, false⟩ :=
  c4_missing_credential cfg0 wNoKey "c" "i" none [] true noRaise none
    (Or.inl rfl) (Or.inr rfl)

/-- C6: a malformed JSON data line between two well-formed delta lines is
skipped: both fragments are still delivered in arrival order and the
accumulated text is their in-order concatenation. -/
theorem c6_malformed_line_skipped (jp : String → Option Json) (r : Nat → Bool)
    (l1 lb l2 f1 f2 : String)
    (h1 : IsDeltaLine jp l1 f1) (hb : IsMalformedDataLine jp lb) (h2 : IsDeltaLine jp l2 f2) :
    streamLoop jp none true r [l1, lb, l2] 0 0 "" [] = ⟨f1 ++ f2, [f1, f2], .doneE⟩ := by
  have hc : ∀ i, ((none : Option (Nat → Bool)).map (fun f => f i)).getD false = false := by
    simp
  rw [streamLoop_piece jp none r l1 f1 _ 0 0 "" [] (hc 0) (lineAction_of_delta jp l1 f1 h1),
    streamLoop_skip jp none true r lb _ 1 1 _ _ (hc 1) (lineAction_of_malformed jp lb hb),
    streamLoop_piece jp none r l2 f2 _ 2 1 _ _ (hc 2) (lineAction_of_delta jp l2 f2 h2),
    streamLoop_nil]
  simp [strEmpty_append]

/-- C6 witness on a concrete three-line feed. -/
theorem c6_malformed_line_skipped_witness :
    streamLoop jpAB none true noRaise ["data: A", "data: ?", "data: B"] 0 0 "" [] =
      ⟨"Hel" ++ "lo", ["Hel", "lo"], .doneE⟩ :=
  c6_malformed_line_skipped jpAB noRaise "data: A" "data: ?" "data: B" "Hel" "lo"
    ⟨by decide, by decide, by decide, rfl, by decide⟩
    ⟨by decide, by decide, by decide, rfl⟩
    ⟨by decide, by decide, by decide, rfl, by decide⟩

/-- C7: if the cancellation flag becomes signaled right after exactly two
delta fragments have been delivered, `stream_with_openai` returns exactly
their concatenation, performs no fallback (one request, `fellBack`
false), and leaves the configuration and the gate untouched. -/
theorem c7_cancellation_after_two (cfg : Config) (w : World) (ctx instr : String)
    (m? : Option String) (hist : List Msg) (r : Nat → Bool) (c : Nat → Bool)
    (sr : StreamResp) (l1 l2 l3 : String) (rest : List String) (f1 f2 : String)
    (hkey : openaiKeyOf w ≠ "")
    (hsr : w.streamRespond ⟨openaiChosenModel cfg w m?, openaiMessages cfg ctx instr hist⟩ = some sr)
    (hst : sr.status = 200)
    (hct : pyContains (pyLower (pyOrS sr.contentType "")) "text/event-stream" = true)
    (hlines : sr.lines = l1 :: l2 :: l3 :: rest)
    (h1 : IsDeltaLine w.jsonParse l1 f1) (h2 : IsDeltaLine w.jsonParse l2 f2)
    (hc0 : c 0 = false) (hc1 : c 1 = false) (hc2 : c 2 = true) :
    stream_with_openai cfg w ctx instr m? hist true r (some c) =
      ⟨f1 ++ f2, [f1, f2], 1, cfg, [], false, true⟩ := by
  rw [stream_openai_sse_eq cfg w ctx instr m? hist true r (some c) sr hkey hsr hst hct, hlines]
  have hl : streamLoop w.jsonParse (some c) true r (l1 :: l2 :: l3 :: rest) 0 0 "" [] =
      ⟨f1 ++ f2, [f1, f2], .cancelledE⟩ := by
    rw [streamLoop_piece w.jsonParse (some c) r l1 f1 _ 0 0 "" [] (by simp [hc0])
        (lineAction_of_delta w.jsonParse l1 f1 h1),
      streamLoop_piece w.jsonParse (some c) r l2 f2 _ 1 1 _ _ (by simp [hc1])
        (lineAction_of_delta w.jsonParse l2 f2 h2),
      streamLoop_cancelled w.jsonParse (some c) true r l3 rest 2 2 _ _ (by simp [hc2])]
    simp [strEmpty_append]
  rw [sse_cancelled cfg w ctx instr (openaiChosenModel cfg w m?) hist true r (some c)
    (l1 :: l2 :: l3 :: rest) (by rw [hl]), hl]

/-- C7 witness: concrete world whose flag flips at the third checkpoint. -/
theorem c7_cancellation_after_two_witness :
    stream_with_openai cfg0 wCancel "c" "i" none [] true noRaise (some (fun i => Nat.ble 2 i)) =
      ⟨"Hel" ++ "lo", ["Hel", "lo"], 1, cfg0, [], false, true⟩ :=
  c7_cancellation_after_two cfg0 wCancel "c" "i" none [] noRaise (fun i => Nat.ble 2 i)
    ⟨200, some "text/event-stream", none, ["data: A", "data: B", "data: ?", "data: [DONE]"]⟩
    "data: A" "data: B" "data: ?" ["data: [DONE]"] "Hel" "lo"
    (by decide) rfl rfl (by decide) rfl
    ⟨by decide, by decide, by decide, rfl, by decide⟩
    ⟨by decide, by decide, by decide, rfl, by decide⟩
    rfl rfl rfl

/-- C1, counterexample: with the streaming POST answering HTTP 500, the
OpenRouter streaming client returns the empty string while the blocking
client would return `"Hi"` for identical arguments — the streaming result
does not equal the blocking result. -/
theorem c1_counterexample :
    (stream_with_openrouter cfg0 w500 "c" "i" none [] true noRaise).text = "" ∧
    (generate_with_openrouter cfg0 w500 "c" "i" none []).text = "Hi" ∧
    (stream_with_openrouter cfg0 w500 "c" "i" none [] true noRaise).text ≠
      (generate_with_openrouter cfg0 w500 "c" "i" none []).text := by
  refine ⟨by decide, by decide, by decide⟩

/-- C1, amended: on a non-success streaming status the OpenAI streaming
client returns exactly what the blocking client returns for the same
context, instructions, resolved model and history, and the gate ends
disabled whenever that fallback text is non-empty; the OpenRouter
streaming client instead returns the empty string with no fallback and no
gate mutation. -/
theorem c1_stream_http_error (cfg : Config) (w : World) (ctx instr : String)
    (m? : Option String) (hist : List Msg) (cb : Bool) (r : Nat → Bool)
    (can : Option (Nat → Bool)) (sr sr2 : StreamResp)
    (hkey : openaiKeyOf w ≠ "")
    (hsr : w.streamRespond ⟨openaiChosenModel cfg w m?, openaiMessages cfg ctx instr hist⟩ = some sr)
    (hst : sr.status ≠ 200)
    (hkey2 : openrouterKeyOf w ≠ "")
    (hsr2 : w.streamRespond ⟨openrouterChosenModel cfg w m?, openrouterMessages cfg ctx instr hist⟩ = some sr2)
    (hst2 : sr2.status ≠ 200) :
    ((stream_with_openai cfg w ctx instr m? hist cb r can).text =
        (generate_with_openai cfg w ctx instr (some (openaiChosenModel cfg w m?)) hist).text ∧
      ((generate_with_openai cfg w ctx instr (some (openaiChosenModel cfg w m?)) hist).text ≠ "" →
        (stream_with_openai cfg w ctx instr m? hist cb r can).cfg.useStreaming = some false)) ∧
    ((stream_with_openrouter cfg w ctx instr m? hist cb r).text = "" ∧
      (stream_with_openrouter cfg w ctx instr m? hist cb r).fellBack = false ∧
      (stream_with_openrouter cfg w ctx instr m? hist cb r).cfg = cfg ∧
      (stream_with_openrouter cfg w ctx instr m? hist cb r).gateWrites = []) := by
  constructor
  · rw [stream_openai_tier1 cfg w ctx instr m? hist cb r can sr hkey hsr hst]
    exact ⟨ff_text cfg w ctx instr _ hist cb [],
      fun h => ff_gate_disabled cfg w ctx instr _ hist cb [] h⟩
  · rw [stream_openrouter_non200 cfg w ctx instr m? hist cb r sr2 hkey2 hsr2 hst2]
    exact ⟨rfl, rfl, rfl, rfl⟩

/-- C1 witness at the concrete HTTP-500 world. -/
theorem c1_stream_http_error_witness :
    (stream_with_openai cfg0 w500 "c" "i" none [] true noRaise none).text =
      (generate_with_openai cfg0 w500 "c" "i" (some (openaiChosenModel cfg0 w500 none)) []).text ∧
    (stream_with_openai cfg0 w500 "c" "i" none [] true noRaise none).cfg.useStreaming =
      some false ∧
    (stream_with_openrouter cfg0 w500 "c" "i" none [] true noRaise).text = "" := by
  have h := c1_stream_http_error cfg0 w500 "c" "i" none [] true noRaise none
    ⟨500, none, none, []⟩ ⟨500, none, none, []⟩
    (by decide) rfl (by decide) (by decide) rfl (by decide)
  exact ⟨h.1.1, h.1.2 (by decide), h.2.1⟩

/-- C2, counterexample: under identical transport conditions (HTTP 200,
declared event stream, zero lines), the routed streaming call delegates
to the blocking client for the `openai` provider (tier 4) but returns the
empty string with no delegation for the `openrouter` provider — the
provider implementations are not structurally identical and the four-tier
machine does not hold regardless of provider. -/
theorem c2_counterexample :
    (stream_with_llm cfgOpenaiP wEmpty "c" "i" none [] true noRaise).text = "Hi" ∧
    (stream_with_llm cfgOpenaiP wEmpty "c" "i" none [] true noRaise).fellBack = true ∧
    (stream_with_llm cfg0 wEmpty "c" "i" none [] true noRaise).text = "" ∧
    (stream_with_llm cfg0 wEmpty "c" "i" none [] true noRaise).fellBack = false ∧
    (stream_with_llm cfgOpenaiP wEmpty "c" "i" none [] true noRaise).text ≠
      (stream_with_llm cfg0 wEmpty "c" "i" none [] true noRaise).text := by
  refine ⟨by decide, by decide, by decide, by decide, by decide⟩

/-- C2, amended: the OpenAI streaming client implements the four-tier
fallback machine — non-success status delegates to the blocking client;
a non-event-stream 200 response is parsed as a single JSON completion or
delegates to the blocking client; event streams are parsed incrementally
with a cancellation checkpoint; an empty completed stream delegates to
the blocking client — with at most one tier firing per call (at most one
extra request).  The OpenRouter streaming client implements only
incremental parsing: non-success status yields the empty string and a
completed stream yields the accumulated text, in both cases without any
blocking-client delegation. -/
theorem c2_fallback_machine (cfg : Config) (w : World) (ctx instr : String)
    (m? : Option String) (hist : List Msg) (cb : Bool) (r : Nat → Bool)
    (can : Option (Nat → Bool)) (sr sr2 : StreamResp)
    (hkey : openaiKeyOf w ≠ "")
    (hsr : w.streamRespond ⟨openaiChosenModel cfg w m?, openaiMessages cfg ctx instr hist⟩ = some sr)
    (hkey2 : openrouterKeyOf w ≠ "")
    (hsr2 : w.streamRespond ⟨openrouterChosenModel cfg w m?, openrouterMessages cfg ctx instr hist⟩ = some sr2) :
    (sr.status ≠ 200 →
      (stream_with_openai cfg w ctx instr m? hist cb r can).text =
        (generate_with_openai cfg w ctx instr (some (openaiChosenModel cfg w m?)) hist).text ∧
      (stream_with_openai cfg w ctx instr m? hist cb r can).fellBack = true) ∧
    (sr.status = 200 →
      pyContains (pyLower (pyOrS sr.contentType "")) "text/event-stream" = false →
      sr.body = none →
      (stream_with_openai cfg w ctx instr m? hist cb r can).text =
        (generate_with_openai cfg w ctx instr (some (openaiChosenModel cfg w m?)) hist).text ∧
      (stream_with_openai cfg w ctx instr m? hist cb r can).fellBack = true) ∧
    (sr.status = 200 →
      pyContains (pyLower (pyOrS sr.contentType "")) "text/event-stream" = false →
      ∀ d t, sr.body = some d → extractTier2 d = some t → t ≠ "" →
      (stream_with_openai cfg w ctx instr m? hist cb r can).text = t ∧
      (stream_with_openai cfg w ctx instr m? hist cb r can).fellBack = false) ∧
    (sr.status = 200 →
      pyContains (pyLower (pyOrS sr.contentType "")) "text/event-stream" = true →
      (streamLoop w.jsonParse can cb r sr.lines 0 0 "" []).exit = .doneE →
      (streamLoop w.jsonParse can cb r sr.lines 0 0 "" []).text ≠ "" →
      (stream_with_openai cfg w ctx instr m? hist cb r can).text =
        (streamLoop w.jsonParse can cb r sr.lines 0 0 "" []).text ∧
      (stream_with_openai cfg w ctx instr m? hist cb r can).fellBack = false) ∧
    (sr.status = 200 →
      pyContains (pyLower (pyOrS sr.contentType "")) "text/event-stream" = true →
      (streamLoop w.jsonParse can cb r sr.lines 0 0 "" []).exit = .doneE →
      (streamLoop w.jsonParse can cb r sr.lines 0 0 "" []).text = "" →
      (stream_with_openai cfg w ctx instr m? hist cb r can).text =
        (generate_with_openai cfg w ctx instr (some (openaiChosenModel cfg w m?)) hist).text ∧
      (stream_with_openai cfg w ctx instr m? hist cb r can).fellBack = true) ∧
    (sr.status = 200 →
      pyContains (pyLower (pyOrS sr.contentType "")) "text/event-stream" = true →
      (streamLoop w.jsonParse can cb r sr.lines 0 0 "" []).exit = .cancelledE →
      (stream_with_openai cfg w ctx instr m? hist cb r can).text =
        (streamLoop w.jsonParse can cb r sr.lines 0 0 "" []).text ∧
      (stream_with_openai cfg w ctx instr m? hist cb r can).fellBack = false) ∧
    (stream_with_openai cfg w ctx instr m? hist cb r can).requests ≤ 2 ∧
    (sr2.status ≠ 200 →
      stream_with_openrouter cfg w ctx instr m? hist cb r = ⟨"", [], 1, cfg, [], false, false⟩) ∧
    (sr2.status = 200 →
      (stream_with_openrouter cfg w ctx instr m? hist cb r).text =
        (streamLoop w.jsonParse none cb r sr2.lines 0 0 "" []).text ∧
      (stream_with_openrouter cfg w ctx instr m? hist cb r).fellBack = false) := by
  refine ⟨?_, ?_, ?_, ?_, ?_, ?_, ?_, ?_, ?_⟩
  · intro hst
    rw [stream_openai_tier1 cfg w ctx instr m? hist cb r can sr hkey hsr hst]
    exact ⟨ff_text cfg w ctx instr _ hist cb [], ff_fellBack cfg w ctx instr _ hist cb []⟩
  · intro hst hct hb
    rw [stream_openai_tier2_eq cfg w ctx instr m? hist cb r can sr hkey hsr hst hct, hb,
      tier2_body_none]
    exact ⟨ff_text cfg w ctx instr _ hist cb [], ff_fellBack cfg w ctx instr _ hist cb []⟩
  · intro hst hct d t hb hd ht
    rw [stream_openai_tier2_eq cfg w ctx instr m? hist cb r can sr hkey hsr hst hct, hb,
      tier2_extract_some cfg w ctx instr _ hist cb d t hd ht]
    exact ⟨rfl, rfl⟩
  · intro hst hct hl ht
    rw [stream_openai_sse_eq cfg w ctx instr m? hist cb r can sr hkey hsr hst hct,
      sse_done_text cfg w ctx instr _ hist cb r can sr.lines hl ht]
    exact ⟨rfl, rfl⟩
  · intro hst hct hl ht
    rw [stream_openai_sse_eq cfg w ctx instr m? hist cb r can sr hkey hsr hst hct,
      sse_done_empty cfg w ctx instr _ hist cb r can sr.lines hl ht]
    exact ⟨ff_text cfg w ctx instr _ hist cb _, ff_fellBack cfg w ctx instr _ hist cb _⟩
  · intro hst hct hl
    rw [stream_openai_sse_eq cfg w ctx instr m? hist cb r can sr hkey hsr hst hct,
      sse_cancelled cfg w ctx instr _ hist cb r can sr.lines hl]
    exact ⟨rfl, rfl⟩
  · exact stream_openai_requests_le cfg w ctx instr m? hist cb r can
  · intro hst2
    exact stream_openrouter_non200 cfg w ctx instr m? hist cb r sr2 hkey2 hsr2 hst2
  · intro hst2
    rw [stream_openrouter_ok cfg w ctx instr m? hist cb r sr2 hkey2 hsr2 hst2]
    exact ⟨rfl, rfl⟩

/-- C2 witness at the concrete empty-stream world (tier 4 for OpenAI,
plain empty return for OpenRouter). -/
theorem c2_fallback_machine_witness :
    (stream_with_openai cfg0 wEmpty "c" "i" none [] true noRaise none).text =
      (generate_with_openai cfg0 wEmpty "c" "i" (some (openaiChosenModel cfg0 wEmpty none)) []).text ∧
    (stream_with_openai cfg0 wEmpty "c" "i" none [] true noRaise none).fellBack = true ∧
    (stream_with_openai cfg0 wEmpty "c" "i" none [] true noRaise none).requests ≤ 2 ∧
    (stream_with_openrouter cfg0 wEmpty "c" "i" none [] true noRaise).text =
      (streamLoop wEmpty.jsonParse none true noRaise [] 0 0 "" []).text := by
  have h := c2_fallback_machine cfg0 wEmpty "c" "i" none [] true noRaise none
    ⟨200, some "text/event-stream", none, []⟩ ⟨200, some "text/event-stream", none, []⟩
    (by decide) rfl (by decide) rfl
  refine ⟨(h.2.2.2.2.1 rfl (by decide) (by decide) (by decide)).1,
    (h.2.2.2.2.1 rfl (by decide) (by decide) (by decide)).2, h.2.2.2.2.2.2.1,
    (h.2.2.2.2.2.2.2.2 rfl).1⟩

/-- C8: the Adaptive Streaming Gate is one-way in the core: every value
the completion clients write to `llm.use_streaming` is `false`, a single
call either leaves the flag unchanged or disables it, and once the flag
is `some false` no call — and no sequence of routed calls — re-enables
it.  (`generate_with_openai`/`generate_with_openrouter` contain no
`set_config_value` call at all, as visible in their definitions, which
return no configuration.) -/
theorem c8_gate_one_way (cfg : Config) (w : World) (ctx instr : String) (m? : Option String)
    (hist : List Msg) (cb : Bool) (r : Nat → Bool) (can : Option (Nat → Bool))
    (calls : List CallArgs) :
    (∀ b ∈ (stream_with_openai cfg w ctx instr m? hist cb r can).gateWrites, b = false) ∧
    (∀ b ∈ (stream_with_openrouter cfg w ctx instr m? hist cb r).gateWrites, b = false) ∧
    ((stream_with_openai cfg w ctx instr m? hist cb r can).cfg.useStreaming = cfg.useStreaming ∨
      (stream_with_openai cfg w ctx instr m? hist cb r can).cfg.useStreaming = some false) ∧
    (cfg.useStreaming = some false →
      (stream_with_openai cfg w ctx instr m? hist cb r can).cfg.useStreaming = some false) ∧
    (stream_with_openrouter cfg w ctx instr m? hist cb r).cfg = cfg ∧
    (cfg.useStreaming = some false → (runStreamSeq calls cfg).useStreaming = some false) := by
  refine ⟨?_, ?_, ?_, ?_, stream_openrouter_cfg_eq cfg w ctx instr m? hist cb r,
    fun h => runStreamSeq_mono calls cfg h⟩
  · intro b hb
    rcases stream_openai_writes_cases cfg w ctx instr m? hist cb r can with hw | hw
    · rw [hw] at hb; simp at hb
    · rw [hw] at hb; exact gateWritesMade_false cfg b hb
  · intro b hb
    rw [stream_openrouter_writes_eq cfg w ctx instr m? hist cb r] at hb
    simp at hb
  · rcases stream_openai_cfg_cases cfg w ctx instr m? hist cb r can with hc | hc
    · left; rw [hc]
    · right; rw [hc]; exact gateAfter_useStreaming cfg
  · intro h
    rcases stream_openai_cfg_cases cfg w ctx instr m? hist cb r can with hc | hc
    · rw [hc]; exact h
    · rw [hc]; exact gateAfter_useStreaming cfg

/-- C8 witness: with the gate already disabled, a call that does fall
back (HTTP 500) still leaves the gate disabled, writes only `false`, and
a sequence of calls keeps it disabled. -/
theorem c8_gate_one_way_witness :
    (∀ b ∈ (stream_with_openai cfgDisabled w500 "c" "i" none [] true noRaise none).gateWrites,
      b = false) ∧
    (stream_with_openai cfgDisabled w500 "c" "i" none [] true noRaise none).cfg.useStreaming =
      some false ∧
    (runStreamSeq [⟨w500, "c", "i", none, [], true, noRaise⟩] cfgDisabled).useStreaming =
      some false := by
  have h := c8_gate_one_way cfgDisabled w500 "c" "i" none [] true noRaise none
    [⟨w500, "c", "i", none, [], true, noRaise⟩]
  exact ⟨h.1, h.2.2.2.1 rfl, h.2.2.2.2.2 rfl⟩

/-- C9: no provider failure propagates to the caller: a raised request,
a non-success status or an undecodable body make the blocking clients
return the empty string; for the streaming clients a raised request
resolves to the empty string with no deltas and no gate write, a
non-success status resolves silently to the blocking fallback's text
(OpenAI) or to the empty string (OpenRouter), and cancellation resolves
to the partial accumulated text. -/
theorem c9_failures_resolve (cfg : Config) (w : World) (ctx instr : String)
    (m? : Option String) (hist : List Msg) (cb : Bool) (r : Nat → Bool)
    (can : Option (Nat → Bool)) :
    (w.blockRespond ⟨openaiChosenModel cfg w m?, openaiMessages cfg ctx instr hist⟩ = none →
      (generate_with_openai cfg w ctx instr m? hist).text = "") ∧
    (∀ br, w.blockRespond ⟨openaiChosenModel cfg w m?, openaiMessages cfg ctx instr hist⟩ = some br →
      br.status ≠ 200 → (generate_with_openai cfg w ctx instr m? hist).text = "") ∧
    (∀ br, w.blockRespond ⟨openaiChosenModel cfg w m?, openaiMessages cfg ctx instr hist⟩ = some br →
      br.body = none → (generate_with_openai cfg w ctx instr m? hist).text = "") ∧
    (w.streamRespond ⟨openaiChosenModel cfg w m?, openaiMessages cfg ctx instr hist⟩ = none →
      (stream_with_openai cfg w ctx instr m? hist cb r can).text = "" ∧
      (stream_with_openai cfg w ctx instr m? hist cb r can).deltas = [] ∧
      (stream_with_openai cfg w ctx instr m? hist cb r can).cfg = cfg) ∧
    (∀ sr, w.streamRespond ⟨openaiChosenModel cfg w m?, openaiMessages cfg ctx instr hist⟩ = some sr →
      sr.status ≠ 200 →
      (stream_with_openai cfg w ctx instr m? hist cb r can).text =
        (generate_with_openai cfg w ctx instr (some (openaiChosenModel cfg w m?)) hist).text) ∧
    (openaiKeyOf w ≠ "" →
      ∀ sr, w.streamRespond ⟨openaiChosenModel cfg w m?, openaiMessages cfg ctx instr hist⟩ = some sr →
      sr.status = 200 →
      pyContains (pyLower (pyOrS sr.contentType "")) "text/event-stream" = true →
      (streamLoop w.jsonParse can cb r sr.lines 0 0 "" []).exit = .cancelledE →
      (stream_with_openai cfg w ctx instr m? hist cb r can).text =
        (streamLoop w.jsonParse can cb r sr.lines 0 0 "" []).text) ∧
    (w.streamRespond ⟨openrouterChosenModel cfg w m?, openrouterMessages cfg ctx instr hist⟩ = none →
      (stream_with_openrouter cfg w ctx instr m? hist cb r).text = "") ∧
    (∀ sr2, w.streamRespond ⟨openrouterChosenModel cfg w m?, openrouterMessages cfg ctx instr hist⟩ = some sr2 →
      sr2.status ≠ 200 → (stream_with_openrouter cfg w ctx instr m? hist cb r).text = "") := by
  refine ⟨?_, ?_, ?_, ?_, ?_, ?_, ?_, ?_⟩
  · intro hb
    by_cases hk : openaiKeyOf w = ""
    · rw [generate_with_openai, if_pos hk]
    · rw [generate_with_openai, if_neg hk, hb]
  · intro br hbr hst
    by_cases hk : openaiKeyOf w = ""
    · rw [generate_with_openai, if_pos hk]
    · rw [generate_with_openai, if_neg hk, hbr]
      simp only [if_pos hst]
  · intro br hbr hbody
    by_cases hk : openaiKeyOf w = ""
    · rw [generate_with_openai, if_pos hk]
    · rw [generate_with_openai, if_neg hk, hbr]
      by_cases hst : br.status ≠ 200
      · simp only [if_pos hst]
      · simp only [if_neg hst, hbody]
  · intro hsn
    by_cases hk : openaiKeyOf w = ""
    · rw [stream_openai_noKey cfg w ctx instr m? hist cb r can hk]
      exact ⟨rfl, rfl, rfl⟩
    · rw [stream_openai_raise cfg w ctx instr m? hist cb r can hk hsn]
      exact ⟨rfl, rfl, rfl⟩
  · intro sr hsr hst
    by_cases hk : openaiKeyOf w = ""
    · rw [stream_openai_noKey cfg w ctx instr m? hist cb r can hk,
        generate_with_openai, if_pos hk]
    · rw [stream_openai_tier1 cfg w ctx instr m? hist cb r can sr hk hsr hst]
      exact ff_text cfg w ctx instr _ hist cb []
  · intro hk sr hsr hst hct hl
    rw [stream_openai_sse_eq cfg w ctx instr m? hist cb r can sr hk hsr hst hct,
      sse_cancelled cfg w ctx instr _ hist cb r can sr.lines hl]
  · intro hsn
    by_cases hk : openrouterKeyOf w = ""
    · rw [stream_openrouter_noKey cfg w ctx instr m? hist cb r hk]
    · rw [stream_openrouter_raise cfg w ctx instr m? hist cb r hk hsn]
  · intro sr2 hsr2 hst2
    by_cases hk : openrouterKeyOf w = ""
    · rw [stream_openrouter_noKey cfg w ctx instr m? hist cb r hk]
    · rw [stream_openrouter_non200 cfg w ctx instr m? hist cb r sr2 hk hsr2 hst2]

/-- C9 witness at a world in which every request raises. -/
theorem c9_failures_resolve_witness :
    (generate_with_openai cfg0 wDown "c" "i" none []).text = "" ∧
    (stream_with_openai cfg0 wDown "c" "i" none [] true noRaise none).text = "" ∧
    (stream_with_openrouter cfg0 wDown "c" "i" none [] true noRaise).text = "" := by
  have h := c9_failures_resolve cfg0 wDown "c" "i" none [] true noRaise none
  exact ⟨h.1 rfl, (h.2.2.2.1 rfl).1, h.2.2.2.2.2.2.1 rfl⟩

/-- C10: a raising `on_delta` callback is swallowed by the per-invocation
handler: the streaming clients' entire observable result — returned text,
delivered fragments, requests, configuration, gate writes — is identical
for every raise pattern, i.e. the same as if the callback had never
raised; in particular the fragment is still appended and later fragments
are still processed and delivered. -/
theorem c10_callback_raise_irrelevant (cfg : Config) (w : World) (ctx instr : String)
    (m? : Option String) (hist : List Msg) (cb : Bool) (can : Option (Nat → Bool))
    (r1 r2 : Nat → Bool) :
    stream_with_openai cfg w ctx instr m? hist cb r1 can =
      stream_with_openai cfg w ctx instr m? hist cb r2 can ∧
    stream_with_openrouter cfg w ctx instr m? hist cb r1 =
      stream_with_openrouter cfg w ctx instr m? hist cb r2 := by
  constructor
  · rw [stream_with_openai, stream_with_openai]
    split
    · rfl
    · split
      · rfl
      · split
        · rfl
        · split
          · rfl
          · exact sse_r_indep cfg w ctx instr _ hist cb r1 r2 can _
  · rw [stream_with_openrouter, stream_with_openrouter]
    split
    · rfl
    · split
      · rfl
      · split
        · rfl
        · rw [streamLoop_r_indep w.jsonParse none cb r1 r2 _ 0 0 "" []]

end VW

